import Mathlib

/-!
Verification of the OAuth token lifecycle and authenticated-request layer of
the `xero` CLI (files `src/config.js`, `src/api.js`, and the command/login
module).  JavaScript values are embedded shallowly: strings stay `String`,
epoch-millisecond timestamps and HTTP status codes become `Int`, JS `null` /
`undefined` become `Option`, JS truthiness of a string is the non-emptiness
test, and every HTTP endpoint is passed in as an explicit `Except`-valued
oracle standing for what the network would answer.  Stateful functions take
the credential store and return the updated store together with
instrumentation (how many token-endpoint calls were made, whether the
resource request was issued) so that ordering claims such as "no network
call is attempted" are expressible.
-/

namespace Xero

/-- JS truthiness of an optional string: `undefined`/`null` and the empty
string are falsy, every other string is truthy. -/
def optTruthy : Option String → Bool
  | none => false
  | some s => s ≠ ""

/-- The persisted configuration record of `src/config.js` (`conf` schema):
fields `clientId, clientSecret, accessToken, refreshToken, tokenExpiry,
tenantId`, with string fields defaulting to `""` and `tokenExpiry` to `0`. -/
structure Store where
  clientId : String
  clientSecret : String
  accessToken : String
  refreshToken : String
  tokenExpiry : Int
  tenantId : String
deriving Repr, DecidableEq

/-- The all-defaults store (every string empty, expiry 0). -/
def Store.empty : Store :=
  { clientId := "", clientSecret := "", accessToken := "", refreshToken := ""
    tokenExpiry := 0, tenantId := "" }

/-- `hasValidToken` from `src/config.js`: false when the stored access token
is empty (JS falsy), otherwise `tokenExpiry > Date.now() + 60000`. -/
def hasValidToken (accessToken : String) (tokenExpiry now : Int) : Bool :=
  if accessToken = "" then false
  else decide (tokenExpiry > now + 60000)

/-- `hasValidToken` read off a store, as the source reads the config. -/
def Store.hasValidToken (s : Store) (now : Int) : Bool :=
  Xero.hasValidToken s.accessToken s.tokenExpiry now

/-- `isConfigured` from `src/config.js`: both client id and secret truthy. -/
def isConfigured (s : Store) : Bool :=
  s.clientId ≠ "" && s.clientSecret ≠ ""

/-- Body of a successful response from the identity/token endpoint; fields
`access_token`, optional `refresh_token`, `expires_in` (seconds). -/
structure TokenResponse where
  access_token : String
  refresh_token : Option String
  expires_in : Int
deriving Repr, DecidableEq

/-- A failed call to the identity/token endpoint, as the `catch` blocks in
`src/api.js` see it: an optional upstream `error_description` inside
`error.response.data`, and the transport error `message`. -/
structure NetFail where
  error_description : Option String
  message : String
deriving Repr, DecidableEq

/-- `error.response?.data?.error_description || error.message` from the
`catch` blocks of both token-exchange functions. -/
def NetFail.describe (e : NetFail) : String :=
  if optTruthy e.error_description then e.error_description.getD "" else e.message

/-- The error taxonomy for the untyped `throw new Error(...)` sites of
`src/api.js`: each constructor tags one class of thrown message (config
missing, authentication/refresh failure, 403, 404, 429, other non-2xx with
its status, no response, token-exchange failure, rethrown raw error), and
carries the exact message string the source builds. -/
inductive XeroError where
  | configError (msg : String)
  | authError (msg : String)
  | permissionError (msg : String)
  | notFoundError (msg : String)
  | rateLimitError (msg : String)
  | apiError (status : Int) (msg : String)
  | networkError (msg : String)
  | tokenExchangeError (msg : String)
  | rawError (msg : String)
deriving Repr, DecidableEq

/-- Whether an error is authentication-related (demands re-login): the
missing-refresh-token and failed-refresh throws of `refreshAccessToken` and
the 401 branch of `handleApiError`. -/
def XeroError.isAuthError : XeroError → Bool
  | .authError _ => true
  | _ => false

/-- Result of a call to the token-refresh path: the outcome (new access
token on success), the store afterwards, and how many POSTs were made to
the identity endpoint (0 or 1). -/
structure RefreshOut where
  result : Except XeroError String
  store : Store
  netCalls : Nat
deriving Repr

/-- `refreshAccessToken` from `src/api.js`: if no refresh token is stored,
throw before any network call; otherwise POST the refresh grant.  On
success store the new access token, the new refresh token only when the
response carried a truthy one, and `tokenExpiry = now + expires_in * 1000`;
on failure throw `Token refresh failed: ...` leaving the store unchanged. -/
def refreshAccessToken (store : Store) (now : Int)
    (net : Except NetFail TokenResponse) : RefreshOut :=
  if store.refreshToken = "" then
    { result := .error (.authError "No refresh token available. Please run: xero auth login")
      store := store, netCalls := 0 }
  else
    match net with
    | .ok r =>
      { result := .ok r.access_token
        store := { store with
          accessToken := r.access_token
          refreshToken := if optTruthy r.refresh_token then r.refresh_token.getD ""
                          else store.refreshToken
          tokenExpiry := now + r.expires_in * 1000 }
        netCalls := 1 }
    | .error e =>
      { result := .error (.authError ("Token refresh failed: " ++ e.describe))
        store := store, netCalls := 1 }

/-- Result of `getAccessToken`: outcome, store, identity-endpoint POST
count, and how many times `refreshAccessToken` was invoked. -/
structure TokenOut where
  result : Except XeroError String
  store : Store
  netCalls : Nat
  refreshAttempts : Nat
deriving Repr

/-- `getAccessToken` from `src/api.js`: return the cached token when
`hasValidToken()` holds, otherwise make exactly one refresh attempt. -/
def getAccessToken (store : Store) (now : Int)
    (net : Except NetFail TokenResponse) : TokenOut :=
  if store.hasValidToken now then
    { result := .ok store.accessToken, store := store, netCalls := 0, refreshAttempts := 0 }
  else
    let r := refreshAccessToken store now net
    { result := r.result, store := r.store, netCalls := r.netCalls, refreshAttempts := 1 }

/-- Result of `exchangeCodeForTokens`: the response body on success, the
store afterwards, and the identity-endpoint POST count. -/
structure ExchangeOut where
  result : Except XeroError TokenResponse
  store : Store
  netCalls : Nat
deriving Repr

/-- `exchangeCodeForTokens` from `src/api.js`: throw a configuration error
before any network call unless both client id and secret are truthy; then
POST the authorization-code grant.  On success store the access token, the
response's refresh token unconditionally, and
`tokenExpiry = now + expires_in * 1000`; on failure throw
`Token exchange failed: ...` leaving the store unchanged.  (The `code` and
`redirectUri` arguments only feed the POSTed form, which the network oracle
stands for.) -/
def exchangeCodeForTokens (code redirectUri : String) (store : Store) (now : Int)
    (net : Except NetFail TokenResponse) : ExchangeOut :=
  if store.clientId = "" || store.clientSecret = "" then
    { result := .error (.configError "Client ID and secret not configured. Run: xero config set --client-id <id> --client-secret <secret>")
      store := store, netCalls := 0 }
  else
    match net with
    | .ok r =>
      { result := .ok r
        store := { store with
          accessToken := r.access_token
          refreshToken := r.refresh_token.getD ""
          tokenExpiry := now + r.expires_in * 1000 }
        netCalls := 1 }
    | .error e =>
      { result := .error (.tokenExchangeError ("Token exchange failed: " ++ e.describe))
        store := store, netCalls := 1 }

/-- Value of one query parameter as built by the resource operations of
`src/api.js` (JS numbers that are integers, or strings). -/
inductive ParamValue where
  | int (n : Int)
  | str (s : String)
deriving Repr, DecidableEq

/-- A JS params object, as an association list in insertion order. -/
abbrev Params := List (String × ParamValue)

/-- The error body of a failed resource response as `handleApiError` reads
it: optional `Detail`, `Message`, `message` fields plus the result of
`JSON.stringify` on the whole body. -/
structure ErrBody where
  Detail : Option String
  Message : Option String
  message : Option String
  serialized : String
deriving Repr, DecidableEq

/-- `data?.Detail || data?.Message || data?.message || JSON.stringify(data)`
from the final branch of `handleApiError`. -/
def ErrBody.firstAvailable (d : ErrBody) : String :=
  if optTruthy d.Detail then d.Detail.getD ""
  else if optTruthy d.Message then d.Message.getD ""
  else if optTruthy d.message then d.message.getD ""
  else d.serialized

/-- An axios failure as `handleApiError` distinguishes them: a response with
a status and body, a request that got no response, or anything else
(rethrown as-is). -/
inductive AxiosFailure where
  | response (status : Int) (data : ErrBody)
  | request (message : String)
  | other (message : String)
deriving Repr, DecidableEq

/-- `handleApiError` from `src/api.js`: classify a failed resource call by
status code (401, 403, 404, 429, other status with the first available
detail field), map a response-less request to a network error, and rethrow
anything else. -/
def handleApiError : AxiosFailure → XeroError
  | .response status data =>
    if status = 401 then
      .authError "Authentication failed. Your token may have expired. Run: xero auth login"
    else if status = 403 then
      .permissionError "Access forbidden. Check your API permissions."
    else if status = 404 then
      .notFoundError "Resource not found."
    else if status = 429 then
      .rateLimitError "Rate limit exceeded. Please wait before retrying."
    else
      .apiError status ("API Error (" ++ toString status ++ "): " ++ data.firstAvailable)
  | .request _ => .networkError "No response from Xero API. Check your internet connection."
  | .other message => .rawError message

/-- The axios request config that `apiRequest` (or `getConnections`) builds
when it reaches the resource call: method, URL, the `Authorization: Bearer`
header, the `Xero-tenant-id` header when present, and the optional params
and body. -/
structure RequestConfig where
  method : String
  url : String
  authorization : String
  xeroTenantId : Option String
  params : Option Params
  data : Option String
deriving Repr, DecidableEq

/-- Result of an authorized request: the outcome, the store afterwards,
the number of identity-endpoint POSTs made while resolving the token, and
the resource request that was issued (`none` when the resource call was
never attempted). -/
structure ApiOut (α : Type) where
  result : Except XeroError α
  store : Store
  tokenNetCalls : Nat
  request : Option RequestConfig
deriving Repr

/-- Base URL constant `XERO_BASE_URL` from `src/api.js`. -/
def XERO_BASE_URL : String := "https://api.xero.com/api.xro/2.0"

/-- Connections URL constant `XERO_CONNECTIONS_URL` from `src/api.js`. -/
def XERO_CONNECTIONS_URL : String := "https://api.xero.com/connections"

/-- `apiRequest` from `src/api.js`: resolve an access token via
`getAccessToken` (propagating its failure without touching the network
again), then require a truthy `tenantId` (else throw the no-tenant error
with no resource call), then issue the request with bearer and tenant
headers and classify any failure through `handleApiError`.  The resource
endpoint is the oracle `resourceNet`. -/
def apiRequest (method endpoint : String) (data : Option String) (params : Option Params)
    (store : Store) (now : Int) (tokenNet : Except NetFail TokenResponse)
    (resourceNet : Except AxiosFailure α) : ApiOut α :=
  let t := getAccessToken store now tokenNet
  match t.result with
  | .error e => { result := .error e, store := t.store, tokenNetCalls := t.netCalls, request := none }
  | .ok token =>
    if t.store.tenantId = "" then
      { result := .error (.configError "No tenant ID configured. Please run: xero auth login")
        store := t.store, tokenNetCalls := t.netCalls, request := none }
    else
      let config : RequestConfig :=
        { method := method, url := XERO_BASE_URL ++ endpoint
          authorization := "Bearer " ++ token
          xeroTenantId := some t.store.tenantId
          params := params, data := data }
      match resourceNet with
      | .ok body =>
        { result := .ok body, store := t.store, tokenNetCalls := t.netCalls, request := some config }
      | .error e =>
        { result := .error (handleApiError e), store := t.store
          tokenNetCalls := t.netCalls, request := some config }

/-- `getConnections` from `src/api.js`: resolve an access token the same
way, then GET the connections URL with only the bearer header (no tenant
check, no tenant header), classifying failures through `handleApiError`. -/
def getConnections (store : Store) (now : Int) (tokenNet : Except NetFail TokenResponse)
    (resourceNet : Except AxiosFailure α) : ApiOut α :=
  let t := getAccessToken store now tokenNet
  match t.result with
  | .error e => { result := .error e, store := t.store, tokenNetCalls := t.netCalls, request := none }
  | .ok token =>
    let config : RequestConfig :=
      { method := "GET", url := XERO_CONNECTIONS_URL
        authorization := "Bearer " ++ token
        xeroTenantId := none, params := none, data := none }
    match resourceNet with
    | .ok body =>
      { result := .ok body, store := t.store, tokenNetCalls := t.netCalls, request := some config }
    | .error e =>
      { result := .error (handleApiError e), store := t.store
        tokenNetCalls := t.netCalls, request := some config }

/-- The params object built by `listInvoices` in `src/api.js`:
`page: 1` always; `Statuses` when the status filter is truthy;
`pageSize: Math.min(limit, 100)` when `limit` is truthy (a JS number is
truthy iff non-zero). -/
def listInvoicesParams (status : Option String) (limit : Int) : Params :=
  let p : Params := [("page", .int 1)]
  let p := if optTruthy status then p ++ [("Statuses", .str (status.getD ""))] else p
  if limit ≠ 0 then p ++ [("pageSize", .int (min limit 100))] else p

/-- `listInvoices` from `src/api.js` up to the request it issues: a GET on
`/Invoices` with no body and the params above.  (The unwrapping of the
`Invoices` envelope field on the response is independent of the claims
about the request.) -/
def listInvoices (status : Option String) (limit : Int)
    (store : Store) (now : Int) (tokenNet : Except NetFail TokenResponse)
    (resourceNet : Except AxiosFailure α) : ApiOut α :=
  apiRequest "GET" "/Invoices" none (some (listInvoicesParams status limit))
    store now tokenNet resourceNet

/-- The `message` of the JS `Error` a given `XeroError` tags (the string
handed to `new Error(...)` at the corresponding throw site). -/
def XeroError.message : XeroError → String
  | .configError m => m
  | .authError m => m
  | .permissionError m => m
  | .notFoundError m => m
  | .rateLimitError m => m
  | .apiError _ m => m
  | .networkError m => m
  | .tokenExchangeError m => m
  | .rawError m => m

/-- One entry of the connections endpoint response. -/
structure Connection where
  tenantId : String
  tenantName : String
deriving Repr, DecidableEq

/-- The `try` block of the login callback handler (command module, `auth
login` action): exchange the code for tokens, fetch the connections, and
when at least one organisation is connected store the first one's
`tenantId`.  Any failure of the exchange or the connections call aborts
the block with that error. -/
def loginExchangeAndTenant (code redirectUri : String) (store : Store) (now : Int)
    (exchangeNet : Except NetFail TokenResponse)
    (connTokenNet : Except NetFail TokenResponse)
    (connNet : Except AxiosFailure (List Connection)) : Except XeroError Store :=
  let ex := exchangeCodeForTokens code redirectUri store now exchangeNet
  match ex.result with
  | .error e => .error e
  | .ok _ =>
    let conn := getConnections ex.store now connTokenNet connNet
    match conn.result with
    | .error e => .error e
    | .ok connections =>
      match connections with
      | [] => .ok conn.store
      | tenant :: _ => .ok { conn.store with tenantId := tenant.tenantId }

/-- A request as the callback server sees it: the URL path and the `code`
and `error` query parameters (`URL.searchParams.get` yields `null`, here
`none`, when absent). -/
structure CallbackRequest where
  pathname : String
  code : Option String
  error : Option String
deriving Repr, DecidableEq

/-- Listener state of the login flow: still listening, completed with the
authorization code that went through, or failed with an error message. -/
inductive ListenerState where
  | listening
  | completed (code : String)
  | failed (msg : String)
deriving Repr, DecidableEq

/-- What one handled request produced: the HTTP status written, the listener
state afterwards, whether `server.close()` was called, and the
authorization code handed to the exchange continuation, if any. -/
structure HandlerOut where
  statusCode : Int
  state : ListenerState
  closed : Bool
  yielded : Option String
deriving Repr, DecidableEq

/-- The callback server handler of the `auth login` action: on `/callback`,
an `error` parameter answers 400, closes the server and rejects with
`OAuth error: ...`; a missing/empty `code` answers 400, closes and rejects
with the no-code message; otherwise the code is handed to the exchange
continuation `cont` (the `try` block, `loginExchangeAndTenant` once its
network oracles are fixed), answering 200/resolve on success or 500/reject
with the error message on failure — closing the server either way.  Any
other path answers 404 and leaves the server running. -/
def handleLoginCallback (cont : String → Except XeroError Store)
    (req : CallbackRequest) : HandlerOut :=
  if req.pathname = "/callback" then
    if optTruthy req.error then
      { statusCode := 400
        state := .failed ("OAuth error: " ++ req.error.getD "")
        closed := true, yielded := none }
    else if ¬ optTruthy req.code then
      { statusCode := 400, state := .failed "No authorization code received"
        closed := true, yielded := none }
    else
      match cont (req.code.getD "") with
      | .ok _ =>
        { statusCode := 200, state := .completed (req.code.getD "")
          closed := true, yielded := some (req.code.getD "") }
      | .error e =>
        { statusCode := 500, state := .failed e.message
          closed := true, yielded := some (req.code.getD "") }
  else
    { statusCode := 404, state := .listening, closed := false, yielded := none }

/-- One step of the listener over a sequence of incoming requests: once the
server has closed it accepts no further connection, otherwise the handler
runs and the open flag drops when it closed the server. -/
def listenerStep (cont : String → Except XeroError Store)
    (acc : ListenerState × Bool) (req : CallbackRequest) : ListenerState × Bool :=
  match acc with
  | (st, false) => (st, false)
  | (_, true) =>
    let out := handleLoginCallback cont req
    (out.state, !out.closed)

/-- The listener run on a whole sequence of requests, starting listening
with the server accepting connections. -/
def listenerRun (cont : String → Except XeroError Store)
    (reqs : List CallbackRequest) : ListenerState × Bool :=
  reqs.foldl (listenerStep cont) (ListenerState.listening, true)

/-! ## Theorems -/

/-- C7: the token validity check `hasValidToken(accessToken, tokenExpiry,
now)` returns true if and only if the access token is non-empty and
`tokenExpiry - now > 60000` milliseconds; so it is false for an empty
token regardless of expiry and false whenever `tokenExpiry - now ≤ 60000`. -/
theorem hasValidToken_iff (a : String) (e n : Int) :
    hasValidToken a e n = true ↔ (a ≠ "" ∧ e - n > 60000) := by
  unfold hasValidToken
  by_cases h : a = "" <;> simp [h] <;> omega

/-- C2: a successful token exchange of either grant type stores the
returned access token and the expiry `now + expires_in * 1000`; the
authorization-code grant also stores the returned refresh token, so a
store holding only client credentials, after an exchange answered with
access token AT1, refresh token RT1 and 1800 seconds, holds AT1, RT1 and
`now + 1800000`. -/
theorem exchange_success_updates_store (store : Store) (now : Int) (r : TokenResponse)
    (code uri : String)
    (hc : store.clientId ≠ "") (hs : store.clientSecret ≠ "") (hr : store.refreshToken ≠ "") :
    (exchangeCodeForTokens code uri store now (.ok r)).result = .ok r ∧
    (exchangeCodeForTokens code uri store now (.ok r)).store.accessToken = r.access_token ∧
    (exchangeCodeForTokens code uri store now (.ok r)).store.refreshToken = r.refresh_token.getD "" ∧
    (exchangeCodeForTokens code uri store now (.ok r)).store.tokenExpiry = now + r.expires_in * 1000 ∧
    (refreshAccessToken store now (.ok r)).result = .ok r.access_token ∧
    (refreshAccessToken store now (.ok r)).store.accessToken = r.access_token ∧
    (refreshAccessToken store now (.ok r)).store.tokenExpiry = now + r.expires_in * 1000 := by
  simp [exchangeCodeForTokens, refreshAccessToken, hc, hs, hr]

/-- Witness for C2: the concrete scenario of the spec, from a store holding
only client credentials and a prior refresh token. -/
theorem exchange_success_updates_store_witness :
    (exchangeCodeForTokens "code1" "http://localhost:8765/callback"
      ⟨"id", "sec", "", "R0", 0, ""⟩ 1000000 (.ok ⟨"AT1", some "RT1", 1800⟩)).store.accessToken = "AT1" ∧
    (exchangeCodeForTokens "code1" "http://localhost:8765/callback"
      ⟨"id", "sec", "", "R0", 0, ""⟩ 1000000 (.ok ⟨"AT1", some "RT1", 1800⟩)).store.refreshToken = "RT1" ∧
    (exchangeCodeForTokens "code1" "http://localhost:8765/callback"
      ⟨"id", "sec", "", "R0", 0, ""⟩ 1000000 (.ok ⟨"AT1", some "RT1", 1800⟩)).store.tokenExpiry = 2800000 := by
  have h := exchange_success_updates_store ⟨"id", "sec", "", "R0", 0, ""⟩ 1000000
    ⟨"AT1", some "RT1", 1800⟩ "code1" "http://localhost:8765/callback"
    (by decide) (by decide) (by decide)
  exact ⟨h.2.1, by simpa using h.2.2.1, by simpa using h.2.2.2.1⟩

/-- C3: a successful refresh grant whose response carries no
`refresh_token` field leaves the stored refresh token unchanged, while a
successful authorization-code exchange always overwrites the stored
refresh token with the response value. -/
theorem refreshToken_rotation (store : Store) (now : Int) (r : TokenResponse)
    (code uri : String) :
    (store.refreshToken ≠ "" → r.refresh_token = none →
      (refreshAccessToken store now (.ok r)).store.refreshToken = store.refreshToken) ∧
    (store.clientId ≠ "" → store.clientSecret ≠ "" → ∀ rt, r.refresh_token = some rt →
      (exchangeCodeForTokens code uri store now (.ok r)).store.refreshToken = rt) := by
  constructor
  · intro hr hn
    simp [refreshAccessToken, hr, hn, optTruthy]
  · intro hc hs rt hrt
    simp [exchangeCodeForTokens, hc, hs, hrt]

/-- Witness for C3: a stored refresh token R1 survives a refresh without
rotation, and an authorization-code exchange replaces R1 by RT2. -/
theorem refreshToken_rotation_witness :
    (refreshAccessToken ⟨"id", "sec", "", "R1", 0, ""⟩ 0 (.ok ⟨"AT2", none, 1800⟩)).store.refreshToken = "R1" ∧
    (exchangeCodeForTokens "c" "u" ⟨"id", "sec", "", "R1", 0, ""⟩ 0
      (.ok ⟨"AT1", some "RT2", 1800⟩)).store.refreshToken = "RT2" :=
  ⟨(refreshToken_rotation ⟨"id", "sec", "", "R1", 0, ""⟩ 0 ⟨"AT2", none, 1800⟩ "c" "u").1
      (by decide) rfl,
   (refreshToken_rotation ⟨"id", "sec", "", "R1", 0, ""⟩ 0 ⟨"AT1", some "RT2", 1800⟩ "c" "u").2
      (by decide) (by decide) "RT2" rfl⟩

/-- C9: a failed token refresh — whether the precondition check on the
stored refresh token fails or the identity endpoint answers with an error —
leaves every field of the credential store unchanged. -/
theorem refresh_failure_preserves_store (store : Store) (now : Int)
    (net : Except NetFail TokenResponse) (e : XeroError)
    (h : (refreshAccessToken store now net).result = .error e) :
    (refreshAccessToken store now net).store = store := by
  unfold refreshAccessToken at *
  by_cases hr : store.refreshToken = ""
  · simp [hr]
  · cases net with
    | ok r => simp [hr] at h
    | error f => simp [hr]

/-- Witness for C9: a concrete store is untouched by a refresh whose
network call fails. -/
theorem refresh_failure_preserves_store_witness :
    (refreshAccessToken ⟨"id", "sec", "old", "R1", 5, "t1"⟩ 0
      (.error ⟨none, "boom"⟩)).store = ⟨"id", "sec", "old", "R1", 5, "t1"⟩ :=
  refresh_failure_preserves_store ⟨"id", "sec", "old", "R1", 5, "t1"⟩ 0
    (.error ⟨none, "boom"⟩) (.authError "Token refresh failed: boom") rfl

/-- C6: `handleApiError` classifies every failed response by status code —
401 to the re-authenticate auth error, 403 to the permission error, 404 to
not-found, 429 to the rate-limit error instructing to wait before
retrying, any other status to an API error carrying the status and the
first available of the `Detail`/`Message`/`message` fields (else the
serialized body) — and a request that received no response to the network
error. -/
theorem handleApiError_classification (status : Int) (data : ErrBody) (msg d m : String) :
    (status = 401 → handleApiError (.response status data) =
      .authError "Authentication failed. Your token may have expired. Run: xero auth login") ∧
    (status = 403 → handleApiError (.response status data) =
      .permissionError "Access forbidden. Check your API permissions.") ∧
    (status = 404 → handleApiError (.response status data) =
      .notFoundError "Resource not found.") ∧
    (status = 429 → handleApiError (.response status data) =
      .rateLimitError "Rate limit exceeded. Please wait before retrying.") ∧
    (status ≠ 401 → status ≠ 403 → status ≠ 404 → status ≠ 429 →
      handleApiError (.response status data) =
        .apiError status ("API Error (" ++ toString status ++ "): " ++ data.firstAvailable)) ∧
    (data.Detail = some d → d ≠ "" → data.firstAvailable = d) ∧
    (data.Detail = none → data.Message = some m → m ≠ "" → data.firstAvailable = m) ∧
    (data.Detail = none → data.Message = none → data.message = none →
      data.firstAvailable = data.serialized) ∧
    handleApiError (.request msg) =
      .networkError "No response from Xero API. Check your internet connection." := by
  refine ⟨?_, ?_, ?_, ?_, ?_, ?_, ?_, ?_, rfl⟩
  · intro h; simp [handleApiError, h]
  · intro h; simp [handleApiError, h]
  · intro h; simp [handleApiError, h]
  · intro h; simp [handleApiError, h]
  · intro h1 h2 h3 h4; simp [handleApiError, h1, h2, h3, h4]
  · intro hd hne; simp [ErrBody.firstAvailable, hd, optTruthy, hne]
  · intro hd hm hne; simp [ErrBody.firstAvailable, hd, hm, optTruthy, hne]
  · intro hd hm hmm; simp [ErrBody.firstAvailable, hd, hm, hmm, optTruthy]

/-- Witness for C6: the classification evaluated at a 401 and at a 500
whose body has only a truthy `Detail` field. -/
theorem handleApiError_classification_witness :
    handleApiError (.response 401 ⟨none, none, none, "x"⟩) =
      .authError "Authentication failed. Your token may have expired. Run: xero auth login" ∧
    handleApiError (.response 500 ⟨some "oops", none, none, "x"⟩) =
      .apiError 500 "API Error (500): oops" := by
  have h1 := handleApiError_classification 401 ⟨none, none, none, "x"⟩ "n" "d" "m"
  have h2 := handleApiError_classification 500 ⟨some "oops", none, none, "x"⟩ "n" "oops" "m"
  refine ⟨h1.1 rfl, ?_⟩
  have := h2.2.2.2.2.1 (by decide) (by decide) (by decide) (by decide)
  have hfa := h2.2.2.2.2.2.1 rfl (by decide)
  simpa [hfa] using this

/-- C10: `listInvoices` always requests page 1 and caps the page size at
100: the `pageSize` parameter it sends is `min(limit, 100)` whenever
`limit` is truthy (non-zero), so a limit above 100 reaches the API as 100;
and whenever the request is issued its params are exactly this object. -/
theorem listInvoices_page_and_cap {α : Type} (status : Option String) (limit : Int)
    (store : Store) (now : Int) (tokenNet : Except NetFail TokenResponse)
    (resourceNet : Except AxiosFailure α) :
    (listInvoicesParams status limit).lookup "page" = some (.int 1) ∧
    (limit ≠ 0 →
      (listInvoicesParams status limit).lookup "pageSize" = some (.int (min limit 100))) ∧
    (limit > 100 →
      (listInvoicesParams status limit).lookup "pageSize" = some (.int 100)) ∧
    (∀ cfg, (listInvoices status limit store now tokenNet resourceNet).request = some cfg →
      cfg.params = some (listInvoicesParams status limit)) := by
  refine ⟨?_, ?_, ?_, ?_⟩
  · cases status <;> by_cases h : limit = 0 <;>
      simp [listInvoicesParams, h, optTruthy, List.lookup] <;> split <;> simp [List.lookup]
  · intro h
    cases status <;> simp [listInvoicesParams, h, optTruthy, List.lookup] <;>
      split <;> simp [List.lookup]
  · intro h
    have hz : limit ≠ 0 := by omega
    have hmin : min limit 100 = 100 := by omega
    cases status <;> simp [listInvoicesParams, hz, hmin, optTruthy, List.lookup] <;>
      split <;> simp [List.lookup]
  · intro cfg hcfg
    unfold listInvoices apiRequest at hcfg
    cases hres : (getAccessToken store now tokenNet).result with
    | error e => simp [hres] at hcfg
    | ok token =>
      simp only [hres] at hcfg
      by_cases ht : (getAccessToken store now tokenNet).store.tenantId = ""
      · simp [ht] at hcfg
      · cases resourceNet with
        | ok body =>
          simp [ht] at hcfg
          simp [← hcfg]
        | error e =>
          simp [ht] at hcfg
          simp [← hcfg]

/-- Witness for C10: with a limit of 250 the params sent carry page 1 and
pageSize 100, and the issued request carries exactly those params. -/
theorem listInvoices_page_and_cap_witness :
    (listInvoicesParams none 250).lookup "pageSize" = some (.int 100) ∧
    (listInvoicesParams none 250).lookup "page" = some (.int 1) := by
  have h := listInvoices_page_and_cap (α := Unit) none 250
    ⟨"id", "sec", "AT", "R1", 1000000, "t1"⟩ 0 (.ok ⟨"AT", none, 1800⟩) (.ok ())
  exact ⟨h.2.2.1 (by omega), h.1⟩

/-- C8 counterexample: with both client id and secret empty but a refresh
token stored, the refresh grant does not fail with a configuration error —
it makes its network call (netCalls = 1) and succeeds. -/
theorem refresh_no_credentials_check :
    (refreshAccessToken ⟨"", "", "", "RT", 0, ""⟩ 0 (.ok ⟨"AT", none, 1800⟩)).netCalls = 1 ∧
    (refreshAccessToken ⟨"", "", "", "RT", 0, ""⟩ 0 (.ok ⟨"AT", none, 1800⟩)).result = .ok "AT" := by
  constructor <;> rfl

/-- C8 amended: the authorization-code exchange fails with the
configuration error and zero network calls when client id or secret is
empty; the refresh grant performs no such check and always reaches its
network call once a refresh token is stored. -/
theorem exchange_credentials_check (store : Store) (now : Int) (code uri : String)
    (net : Except NetFail TokenResponse)
    (h : store.clientId = "" ∨ store.clientSecret = "") :
    (exchangeCodeForTokens code uri store now net).result =
      .error (.configError "Client ID and secret not configured. Run: xero config set --client-id <id> --client-secret <secret>") ∧
    (exchangeCodeForTokens code uri store now net).netCalls = 0 ∧
    (store.refreshToken ≠ "" → (refreshAccessToken store now net).netCalls = 1) := by
  have hb : (store.clientId = "" || store.clientSecret = "") = true := by
    rcases h with h | h <;> simp [h]
  refine ⟨?_, ?_, ?_⟩
  · simp [exchangeCodeForTokens, hb]
  · simp [exchangeCodeForTokens, hb]
  · intro hr
    cases net <;> simp [refreshAccessToken, hr]

/-- Witness for C8 amended: the empty-credential store makes the exchange
fail with no network call while the refresh grant still calls out. -/
theorem exchange_credentials_check_witness :
    (exchangeCodeForTokens "c" "u" ⟨"", "", "", "RT", 0, ""⟩ 0 (.ok ⟨"AT", none, 1800⟩)).netCalls = 0 ∧
    (refreshAccessToken ⟨"", "", "", "RT", 0, ""⟩ 0 (.ok ⟨"AT", none, 1800⟩)).netCalls = 1 := by
  have h := exchange_credentials_check ⟨"", "", "", "RT", 0, ""⟩ 0 "c" "u"
    (.ok ⟨"AT", none, 1800⟩) (Or.inl rfl)
  exact ⟨h.2.1, h.2.2 (by decide)⟩

/-- C5 counterexample: with an empty tenant id but a stale cached token and
a stored refresh token, `apiRequest` does fail with the no-tenant
configuration error, yet only after one identity-endpoint network call —
not before any network call is attempted. -/
theorem apiRequest_refreshes_before_tenant_check :
    (apiRequest (α := Unit) "GET" "/Invoices" none none ⟨"id", "sec", "", "RT", 0, ""⟩ 0
      (.ok ⟨"AT", none, 1800⟩) (.ok ())).result =
      .error (.configError "No tenant ID configured. Please run: xero auth login") ∧
    (apiRequest (α := Unit) "GET" "/Invoices" none none ⟨"id", "sec", "", "RT", 0, ""⟩ 0
      (.ok ⟨"AT", none, 1800⟩) (.ok ())).tokenNetCalls = 1 := by
  constructor <;> rfl

/-- C5 amended: whenever the token resolves and the stored tenant id is
empty, every resource operation fails with the no-tenant configuration
error and the resource request is never issued; with a valid cached token
no network call at all precedes that failure, but a stale cached token
triggers the single token-refresh call before the tenant check. -/
theorem apiRequest_requires_tenant {α : Type} (method endpoint : String)
    (data : Option String) (params : Option Params) (store : Store) (now : Int)
    (tokenNet : Except NetFail TokenResponse) (resourceNet : Except AxiosFailure α)
    (ht : store.tenantId = "") :
    (∀ token, (getAccessToken store now tokenNet).result = .ok token →
      (apiRequest method endpoint data params store now tokenNet resourceNet).result =
        .error (.configError "No tenant ID configured. Please run: xero auth login") ∧
      (apiRequest method endpoint data params store now tokenNet resourceNet).request = none) ∧
    (store.hasValidToken now = true →
      (apiRequest method endpoint data params store now tokenNet resourceNet).tokenNetCalls = 0) := by
  have hstore : (getAccessToken store now tokenNet).store.tenantId = "" := by
    unfold getAccessToken
    by_cases hv : store.hasValidToken now
    · simp [hv, ht]
    · unfold refreshAccessToken
      by_cases hr : store.refreshToken = ""
      · simp [hv, hr, ht]
      · cases tokenNet <;> simp [hv, hr, ht]
  constructor
  · intro token htok
    unfold apiRequest
    simp [htok, hstore]
  · intro hv
    unfold apiRequest getAccessToken
    simp [hv, ht]

/-- Witness for C5 amended: with a valid cached token and no tenant id the
call fails with the configuration error, no request issued, and zero
network calls. -/
theorem apiRequest_requires_tenant_witness :
    (apiRequest (α := Unit) "GET" "/Invoices" none none ⟨"id", "sec", "AT", "RT", 1000000, ""⟩ 0
      (.ok ⟨"AT2", none, 1800⟩) (.ok ())).result =
      .error (.configError "No tenant ID configured. Please run: xero auth login") ∧
    (apiRequest (α := Unit) "GET" "/Invoices" none none ⟨"id", "sec", "AT", "RT", 1000000, ""⟩ 0
      (.ok ⟨"AT2", none, 1800⟩) (.ok ())).request = none ∧
    (apiRequest (α := Unit) "GET" "/Invoices" none none ⟨"id", "sec", "AT", "RT", 1000000, ""⟩ 0
      (.ok ⟨"AT2", none, 1800⟩) (.ok ())).tokenNetCalls = 0 := by
  have h := apiRequest_requires_tenant (α := Unit) "GET" "/Invoices" none none
    ⟨"id", "sec", "AT", "RT", 1000000, ""⟩ 0 (.ok ⟨"AT2", none, 1800⟩) (.ok ()) rfl
  have h1 := h.1 "AT" rfl
  exact ⟨h1.1, h1.2, h.2 (by decide)⟩

/-- The executor's token-endpoint call count is exactly what token
resolution spent: the resource call itself never touches the identity
endpoint. -/
theorem apiRequest_tokenNetCalls_eq {α : Type} (method endpoint : String)
    (data : Option String) (params : Option Params) (store : Store) (now : Int)
    (tokenNet : Except NetFail TokenResponse) (resourceNet : Except AxiosFailure α) :
    (apiRequest method endpoint data params store now tokenNet resourceNet).tokenNetCalls =
      (getAccessToken store now tokenNet).netCalls := by
  unfold apiRequest
  rcases h : (getAccessToken store now tokenNet).result with e | tok <;> simp [h]
  split
  · simp
  · cases resourceNet <;> simp

/-- Same accounting for `getConnections`. -/
theorem getConnections_tokenNetCalls_eq {α : Type} (store : Store) (now : Int)
    (tokenNet : Except NetFail TokenResponse) (resourceNet : Except AxiosFailure α) :
    (getConnections store now tokenNet resourceNet).tokenNetCalls =
      (getAccessToken store now tokenNet).netCalls := by
  unfold getConnections
  rcases h : (getAccessToken store now tokenNet).result with e | tok <;> simp [h]
  cases resourceNet <;> simp

/-- Token resolution makes at most one identity-endpoint call. -/
theorem getAccessToken_netCalls_le_one (store : Store) (now : Int)
    (net : Except NetFail TokenResponse) :
    (getAccessToken store now net).netCalls ≤ 1 := by
  unfold getAccessToken refreshAccessToken
  by_cases hv : store.hasValidToken now
  · simp [hv]
  · by_cases hr : store.refreshToken = "" <;> cases net <;> simp [hv, hr]

/-- Every error token resolution can produce is authentication-related:
the missing-refresh-token throw or the failed-refresh throw. -/
theorem getAccessToken_error_isAuthError (store : Store) (now : Int)
    (net : Except NetFail TokenResponse) (e : XeroError)
    (h : (getAccessToken store now net).result = .error e) :
    e.isAuthError = true := by
  unfold getAccessToken refreshAccessToken at h
  by_cases hv : store.hasValidToken now
  · simp [hv] at h
  · by_cases hr : store.refreshToken = "" <;> cases net <;>
      simp [hv, hr] at h <;> simp [← h, XeroError.isAuthError]

/-- When the resource request is issued, its bearer header carries the
token that resolution returned. -/
theorem apiRequest_bearer {α : Type} (method endpoint : String)
    (data : Option String) (params : Option Params) (store : Store) (now : Int)
    (tokenNet : Except NetFail TokenResponse) (resourceNet : Except AxiosFailure α)
    (tok : String) (htok : (getAccessToken store now tokenNet).result = .ok tok)
    (cfg : RequestConfig)
    (hcfg : (apiRequest method endpoint data params store now tokenNet resourceNet).request = some cfg) :
    cfg.authorization = "Bearer " ++ tok := by
  unfold apiRequest at hcfg
  simp only [htok] at hcfg
  by_cases ht : (getAccessToken store now tokenNet).store.tenantId = ""
  · rw [if_pos ht] at hcfg
    simp at hcfg
  · rw [if_neg ht] at hcfg
    cases resourceNet with
    | ok body =>
      simp at hcfg
      subst hcfg
      rfl
    | error e =>
      simp at hcfg
      subst hcfg
      rfl

/-- C1: for both authorized executors, a cached token that passes the
validity check is used with no identity-endpoint call; an invalid cached
token triggers exactly one refresh attempt and at most one exchange per
invocation; a failed token resolution propagates its auth error unchanged
and the resource request is never issued; and after a successful refresh
the request carries the newly returned token. -/
theorem authorized_request_token_resolution {α : Type} (method endpoint : String)
    (data : Option String) (params : Option Params) (store : Store) (now : Int)
    (tokenNet : Except NetFail TokenResponse) (resourceNet : Except AxiosFailure α) :
    (store.hasValidToken now = true →
      (getAccessToken store now tokenNet).result = .ok store.accessToken ∧
      (apiRequest method endpoint data params store now tokenNet resourceNet).tokenNetCalls = 0 ∧
      (getConnections store now tokenNet resourceNet).tokenNetCalls = 0) ∧
    (store.hasValidToken now = false →
      (getAccessToken store now tokenNet).refreshAttempts = 1 ∧
      (apiRequest method endpoint data params store now tokenNet resourceNet).tokenNetCalls ≤ 1 ∧
      (getConnections store now tokenNet resourceNet).tokenNetCalls ≤ 1) ∧
    (∀ e, (getAccessToken store now tokenNet).result = .error e →
      (apiRequest method endpoint data params store now tokenNet resourceNet).result = .error e ∧
      (apiRequest method endpoint data params store now tokenNet resourceNet).request = none ∧
      (getConnections store now tokenNet resourceNet).result = .error e ∧
      (getConnections store now tokenNet resourceNet).request = none ∧
      e.isAuthError = true) ∧
    (∀ r cfg, store.hasValidToken now = false → tokenNet = .ok r → store.refreshToken ≠ "" →
      (apiRequest method endpoint data params store now tokenNet resourceNet).request = some cfg →
      cfg.authorization = "Bearer " ++ r.access_token) := by
  refine ⟨?_, ?_, ?_, ?_⟩
  · intro hv
    refine ⟨by simp [getAccessToken, hv], ?_, ?_⟩
    · rw [apiRequest_tokenNetCalls_eq]; simp [getAccessToken, hv]
    · rw [getConnections_tokenNetCalls_eq]; simp [getAccessToken, hv]
  · intro hv
    refine ⟨by simp [getAccessToken, hv], ?_, ?_⟩
    · rw [apiRequest_tokenNetCalls_eq]; exact getAccessToken_netCalls_le_one store now tokenNet
    · rw [getConnections_tokenNetCalls_eq]; exact getAccessToken_netCalls_le_one store now tokenNet
  · intro e he
    refine ⟨?_, ?_, ?_, ?_, getAccessToken_error_isAuthError store now tokenNet e he⟩
    · unfold apiRequest; simp [he]
    · unfold apiRequest; simp [he]
    · unfold getConnections; simp [he]
    · unfold getConnections; simp [he]
  · intro r cfg hv hnet hr hcfg
    refine apiRequest_bearer method endpoint data params store now tokenNet resourceNet
      r.access_token ?_ cfg hcfg
    subst hnet
    simp [getAccessToken, refreshAccessToken, hv, hr]

/-- Witness for C1: with no refresh token stored and a stale cached token,
the resolution failure is the auth error, the resource request is never
issued, and exactly one refresh attempt was made. -/
theorem authorized_request_token_resolution_witness :
    (apiRequest (α := Unit) "GET" "/Invoices" none none ⟨"id", "sec", "", "", 0, "t1"⟩ 0
      (.error ⟨none, "x"⟩) (.ok ())).result =
      .error (.authError "No refresh token available. Please run: xero auth login") ∧
    (apiRequest (α := Unit) "GET" "/Invoices" none none ⟨"id", "sec", "", "", 0, "t1"⟩ 0
      (.error ⟨none, "x"⟩) (.ok ())).request = none ∧
    (getAccessToken ⟨"id", "sec", "", "", 0, "t1"⟩ 0 (.error ⟨none, "x"⟩)).refreshAttempts = 1 := by
  have h := authorized_request_token_resolution (α := Unit) "GET" "/Invoices" none none
    ⟨"id", "sec", "", "", 0, "t1"⟩ 0 (.error ⟨none, "x"⟩) (.ok ())
  have h3 := h.2.2.1 (.authError "No refresh token available. Please run: xero auth login") rfl
  exact ⟨h3.1, h3.2.1, (h.2.1 (by decide)).1⟩

/-- A closed listener ignores every further request. -/
theorem foldl_listenerStep_closed (cont : String → Except XeroError Store)
    (more : List CallbackRequest) :
    ∀ st, List.foldl (listenerStep cont) (st, false) more = (st, false) := by
  induction more with
  | nil => intro st; rfl
  | cons r rs ih => intro st; rw [List.foldl_cons]; exact ih st

/-- Once a run of the listener has closed the server, appending any
further requests changes nothing. -/
theorem listenerRun_one_shot (cont : String → Except XeroError Store)
    (reqs more : List CallbackRequest)
    (h : (listenerRun cont reqs).2 = false) :
    listenerRun cont (reqs ++ more) = listenerRun cont reqs := by
  unfold listenerRun at h ⊢
  rw [List.foldl_append]
  rcases hacc : List.foldl (listenerStep cont) (ListenerState.listening, true) reqs with ⟨st, b⟩
  rw [hacc] at h
  simp at h
  subst h
  exact foldl_listenerStep_closed cont more st

/-- C4 counterexample: a `/callback` request carrying the code `abc123`
does not reach the Completed state when the inlined exchange continuation
(the `try` block of the handler, here with the identity endpoint refusing
the grant) fails — the listener ends Failed instead. -/
theorem callback_code_not_always_completed :
    (handleLoginCallback
      (fun cd => loginExchangeAndTenant cd "http://localhost:8765/callback"
      ⟨"id", "sec", "", "", 0, ""⟩ 0
      (.error ⟨some "invalid_grant", "Request failed with status code 400"⟩)
      (.ok ⟨"T", none, 1800⟩) (.ok []))
      ⟨"/callback", some "abc123", none⟩).state =
      .failed "Token exchange failed: invalid_grant" ∧
    (handleLoginCallback
      (fun cd => loginExchangeAndTenant cd "http://localhost:8765/callback"
      ⟨"id", "sec", "", "", 0, ""⟩ 0
      (.error ⟨some "invalid_grant", "Request failed with status code 400"⟩)
      (.ok ⟨"T", none, 1800⟩) (.ok []))
      ⟨"/callback", some "abc123", none⟩).state ≠
      .completed "abc123" := by
  have h : (handleLoginCallback
      (fun cd => loginExchangeAndTenant cd "http://localhost:8765/callback"
      ⟨"id", "sec", "", "", 0, ""⟩ 0
      (.error ⟨some "invalid_grant", "Request failed with status code 400"⟩)
      (.ok ⟨"T", none, 1800⟩) (.ok []))
      ⟨"/callback", some "abc123", none⟩).state =
      .failed "Token exchange failed: invalid_grant" := rfl
  exact ⟨h, by rw [h]; decide⟩

/-- C4 amended: on `/callback` the handler hands a truthy code to the
exchange continuation and closes, ending Completed with that code when the
continuation succeeds and Failed with its message when it does not; a
truthy `error` parameter ends Failed with a message containing that error
string; any other path is answered 404 with the listener still listening;
the server is closed exactly when a terminal state is reached, and a run
that has closed accepts no further requests. -/
theorem callback_listener_state_machine (cont : String → Except XeroError Store)
    (path c e : String) (oc oe : Option String) (reqs more : List CallbackRequest) :
    (∀ st, c ≠ "" → cont c = .ok st →
      handleLoginCallback cont ⟨"/callback", some c, none⟩ =
        ⟨200, .completed c, true, some c⟩) ∧
    (∀ err, c ≠ "" → cont c = .error err →
      handleLoginCallback cont ⟨"/callback", some c, none⟩ =
        ⟨500, .failed err.message, true, some c⟩) ∧
    (e ≠ "" →
      handleLoginCallback cont ⟨"/callback", oc, some e⟩ =
        ⟨400, .failed ("OAuth error: " ++ e), true, none⟩) ∧
    (path ≠ "/callback" →
      handleLoginCallback cont ⟨path, oc, oe⟩ =
        ⟨404, .listening, false, none⟩) ∧
    (∀ req, (handleLoginCallback cont req).closed = true ↔
      (handleLoginCallback cont req).state ≠ .listening) ∧
    ((listenerRun cont reqs).2 = false →
      listenerRun cont (reqs ++ more) = listenerRun cont reqs) := by
  refine ⟨?_, ?_, ?_, ?_, ?_, listenerRun_one_shot cont reqs more⟩
  · intro st hc hcont
    simp [handleLoginCallback, optTruthy, hc, hcont]
  · intro err hc hcont
    simp [handleLoginCallback, optTruthy, hc, hcont]
  · intro he
    simp [handleLoginCallback, optTruthy, he]
  · intro hp
    simp [handleLoginCallback, hp]
  · intro req
    unfold handleLoginCallback
    by_cases hp : req.pathname = "/callback"
    · by_cases he : optTruthy req.error
      · simp [hp, he]
      · by_cases hcd : optTruthy req.code
        · cases hcont : cont (req.code.getD "") <;> simp [hp, he, hcd, hcont]
        · simp [hp, he, hcd]
    · simp [hp]

/-- Witness for C4 amended: with the login continuation succeeding against
mocked endpoints, the code callback completes with `abc123`, an
`access_denied` error callback fails with a message containing it, another
path answers 404 still listening, and requests after the one-shot
completion are ignored. -/
theorem callback_listener_state_machine_witness :
    handleLoginCallback
      (fun cd => loginExchangeAndTenant cd "http://localhost:8765/callback"
      ⟨"id", "sec", "", "", 0, ""⟩ 0 (.ok ⟨"AT1", some "RT1", 1800⟩)
      (.ok ⟨"AT1", none, 1800⟩) (.ok [⟨"tenant-1", "Org"⟩]))
      ⟨"/callback", some "abc123", none⟩ =
      ⟨200, .completed "abc123", true, some "abc123"⟩ ∧
    handleLoginCallback
      (fun cd => loginExchangeAndTenant cd "http://localhost:8765/callback"
      ⟨"id", "sec", "", "", 0, ""⟩ 0 (.ok ⟨"AT1", some "RT1", 1800⟩)
      (.ok ⟨"AT1", none, 1800⟩) (.ok [⟨"tenant-1", "Org"⟩]))
      ⟨"/callback", none, some "access_denied"⟩ =
      ⟨400, .failed "OAuth error: access_denied", true, none⟩ ∧
    handleLoginCallback
      (fun cd => loginExchangeAndTenant cd "http://localhost:8765/callback"
      ⟨"id", "sec", "", "", 0, ""⟩ 0 (.ok ⟨"AT1", some "RT1", 1800⟩)
      (.ok ⟨"AT1", none, 1800⟩) (.ok [⟨"tenant-1", "Org"⟩]))
      ⟨"/other", none, none⟩ = ⟨404, .listening, false, none⟩ ∧
    listenerRun
      (fun cd => loginExchangeAndTenant cd "http://localhost:8765/callback"
      ⟨"id", "sec", "", "", 0, ""⟩ 0 (.ok ⟨"AT1", some "RT1", 1800⟩)
      (.ok ⟨"AT1", none, 1800⟩) (.ok [⟨"tenant-1", "Org"⟩]))
      ([⟨"/callback", some "abc123", none⟩] ++ [⟨"/callback", none, some "access_denied"⟩]) =
      listenerRun
      (fun cd => loginExchangeAndTenant cd "http://localhost:8765/callback"
      ⟨"id", "sec", "", "", 0, ""⟩ 0 (.ok ⟨"AT1", some "RT1", 1800⟩)
      (.ok ⟨"AT1", none, 1800⟩) (.ok [⟨"tenant-1", "Org"⟩]))
      [⟨"/callback", some "abc123", none⟩] := by
  have h := callback_listener_state_machine
    (fun cd => loginExchangeAndTenant cd "http://localhost:8765/callback"
      ⟨"id", "sec", "", "", 0, ""⟩ 0 (.ok ⟨"AT1", some "RT1", 1800⟩)
      (.ok ⟨"AT1", none, 1800⟩) (.ok [⟨"tenant-1", "Org"⟩]))
    "/other" "abc123" "access_denied" none none
    [⟨"/callback", some "abc123", none⟩] [⟨"/callback", none, some "access_denied"⟩]
  refine ⟨?_, ?_, ?_, ?_⟩
  · exact h.1 ⟨"id", "sec", "AT1", "RT1", 1800000, "tenant-1"⟩ (by decide) rfl
  · exact h.2.2.1 (by decide)
  · exact h.2.2.2.1 (by decide)
  · exact h.2.2.2.2.2 rfl

end Xero
